import Mathlib

/-!
Verification of the power-calculator app (`src/app.py`) against its
natural-language specification.

The program is a straight-line Streamlit script: it reads one integer from
a `st.number_input` widget (default 1, step 1), computes `n**2`, `n**3`
and `n**5`, and renders three formatted lines.  Python integers are
arbitrary precision, so the computation is embedded over `Int`.
-/

/-- Configuration of the `st.number_input` widget on line 8 of `app.py`:
label `"Enter an integer"`, default value `1`, step `1`. -/
structure NumberInputConfig where
  label : String
  value : Int
  step : Int

/-- The widget as instantiated in `app.py`:
`st.number_input("Enter an integer", value=1, step=1)`. -/
def numberInput : NumberInputConfig :=
  ⟨"Enter an integer", 1, 1⟩

/-- Line 11 of `app.py`: `square = n**2`. -/
def square (n : Int) : Int := n ^ 2

/-- Line 12 of `app.py`: `cube = n**3`. -/
def cube (n : Int) : Int := n ^ 3

/-- Line 13 of `app.py`: `fifth_power = n**5`. -/
def fifth_power (n : Int) : Int := n ^ 5

/-- The triple of values the script computes from the input (lines 11-13);
the spec calls this component `Calculator`. -/
def Calculator (n : Int) : Int × Int × Int :=
  (square n, cube n, fifth_power n)

/-- The three result lines rendered by `st.write` on lines 16-18 of
`app.py`, with the f-string interpolation made explicit.  The first line
reproduces the source text verbatim, including its misspelling
`"sqaure"`. -/
def outputLines (n : Int) : List String :=
  [ "The sqaure of " ++ toString n ++ " is: " ++ toString (square n)
  , "The cube of " ++ toString n ++ " is: " ++ toString (cube n)
  , "The fifth_power of " ++ toString n ++ " is: " ++ toString (fifth_power n) ]

/-- The three output lines as the specification states them (section 6):
the first line is spelled `"The square of ..."`.  This definition follows
the spec's words, for comparison with `outputLines`, which follows the
source. -/
def specOutputLines (n : Int) : List String :=
  [ "The square of " ++ toString n ++ " is: " ++ toString (n ^ 2)
  , "The cube of " ++ toString n ++ " is: " ++ toString (n ^ 3)
  , "The fifth_power of " ++ toString n ++ " is: " ++ toString (n ^ 5) ]

/-- The computation lifted into `Except`.  The source (lines 11-13) is
straight-line code with no `try`/`except` and no operation that can raise
(`**` with fixed non-negative integer exponents on a Python `int` never
fails), so the embedding has no reachable `error` branch. -/
def CalculatorE (n : Int) : Except String (Int × Int × Int) :=
  Except.ok (Calculator n)

/-- Ambient state a script could in principle read or write: files,
environment variables, and Streamlit session state.  `app.py` touches
none of these. -/
structure Ambient where
  files : String → Option String
  envVars : String → Option String
  sessionState : String → Option String

/-- One render cycle of the script under a state-passing embedding: given
the ambient state and the widget value `n`, the script produces its
displayed result lines.  The body of `app.py` (lines 4-18) performs no
read or write of files, environment variables or session state, so the
ambient state is threaded through unchanged. -/
def renderCycle (amb : Ambient) (n : Int) : List String × Ambient :=
  (outputLines n, amb)

/-- C1: for every integer `n`, the computed triple
`(square, cube, fifth_power)` equals `(n*n, n*n*n, n*n*n*n*n)`. -/
theorem Calculator_eq_powers (n : Int) :
    Calculator n = (n * n, n * n * n, n * n * n * n * n) := by
  simp only [Calculator, square, cube, fifth_power, Prod.mk.injEq]
  refine ⟨by ring, by ring, by ring⟩

/-- C2 (code bug): at input `1` the first rendered line reads
`"The sqaure of 1 is: 1"` — the source's misspelling — so the rendered
lines differ from the spec's `"The square of 1 is: 1"`. -/
theorem outputLines_one_misspelled :
    outputLines 1
      = ["The sqaure of 1 is: 1", "The cube of 1 is: 1", "The fifth_power of 1 is: 1"]
    ∧ outputLines 1 ≠ specOutputLines 1 := by
  constructor
  · rfl
  · decide

/-- C3: `Calculator (-2) = (4, -8, -32)` and
`Calculator 10 = (100, 1000, 100000)`: a negative input yields a positive
square and a negative cube and fifth power. -/
theorem Calculator_neg_two_and_ten :
    Calculator (-2) = (4, -8, -32) ∧ Calculator 10 = (100, 1000, 100000) := by
  decide

/-- C4: the computation is total, with no reachable error case: for every
integer `n` the `Except`-lifted computation returns `ok` and is never
`error`. -/
theorem CalculatorE_total (n : Int) :
    CalculatorE n = Except.ok (Calculator n)
    ∧ ∀ msg : String, CalculatorE n ≠ Except.error msg := by
  exact ⟨rfl, fun msg h => by simp [CalculatorE] at h⟩

/-- C5: the computation is a deterministic pure function of its input:
the displayed result does not depend on the ambient state, and invoking
the render cycle again (with the state left by the first invocation)
yields the same result. -/
theorem renderCycle_deterministic (a b : Ambient) (n : Int) :
    (renderCycle a n).1 = (renderCycle b n).1
    ∧ (renderCycle a n).1 = (renderCycle (renderCycle a n).2 n).1 :=
  ⟨rfl, rfl⟩

/-- C6: the computation has no side effects: a render cycle leaves the
ambient state (files, environment variables, session state) exactly as
it found it. -/
theorem renderCycle_no_side_effects (a : Ambient) (n : Int) :
    (renderCycle a n).2 = a := rfl

/-- C7: the input widget has default value `1` and step `1`, and at the
default input the computed triple is `(1, 1, 1)`. -/
theorem numberInput_default_calculator_one :
    numberInput.value = 1 ∧ numberInput.step = 1
    ∧ Calculator numberInput.value = (1, 1, 1) := by
  decide

/-- C8: arithmetic is exact arbitrary-precision integer arithmetic: the
computed components equal the mathematical powers `n^2`, `n^3`, `n^5`
for every `n`, and no fixed bit width bounds the results — for every
width `w` some input's square already exceeds `2^w`, yet is still the
exact mathematical value. -/
theorem Calculator_exact_no_overflow :
    (∀ n : Int, Calculator n = (n ^ 2, n ^ 3, n ^ 5))
    ∧ ∀ w : Nat, ∃ n : Int, (2 : Int) ^ w < (Calculator n).1
        ∧ (Calculator n).1 = n ^ 2 := by
  refine ⟨fun n => rfl, fun w => ⟨2 ^ w + 1, ?_, rfl⟩⟩
  have h : (0 : Int) < 2 ^ w := by positivity
  show (2 : Int) ^ w < square (2 ^ w + 1)
  simp only [square]
  nlinarith [h]

/-- C9: the three outputs are algebraically consistent: for every `n`,
`square * cube = fifth_power`, equivalently
`fifth_power = n * square * square`. -/
theorem Calculator_outputs_consistent (n : Int) :
    square n * cube n = fifth_power n
    ∧ fifth_power n = n * square n * square n := by
  constructor
  · simp only [square, cube, fifth_power]; ring
  · simp only [square, fifth_power]; ring

/-- C10: sign invariant of the outputs: the square is non-negative, and
the cube and fifth power are positive for positive `n`, zero at `0`, and
negative for negative `n`. -/
theorem Calculator_sign_invariant (n : Int) :
    0 ≤ square n
    ∧ (0 < n → 0 < cube n ∧ 0 < fifth_power n)
    ∧ (n = 0 → cube n = 0 ∧ fifth_power n = 0)
    ∧ (n < 0 → cube n < 0 ∧ fifth_power n < 0) := by
  refine ⟨by simp only [square]; positivity, fun h => ?_, fun h => ?_, fun h => ?_⟩
  · exact ⟨by simp only [cube]; positivity, by simp only [fifth_power]; positivity⟩
  · subst h; exact ⟨rfl, rfl⟩
  · constructor
    · simp only [cube]
      exact Odd.pow_neg (by decide) h
    · simp only [fifth_power]
      exact Odd.pow_neg (by decide) h

/-- Instance of C10 at the concrete input `-2`: the square is
non-negative and the cube and fifth power are negative. -/
theorem Calculator_sign_invariant_witness :
    0 ≤ square (-2) ∧ cube (-2) < 0 ∧ fifth_power (-2) < 0 :=
  ⟨(Calculator_sign_invariant (-2)).1,
   ((Calculator_sign_invariant (-2)).2.2.2 (by decide)).1,
   ((Calculator_sign_invariant (-2)).2.2.2 (by decide)).2⟩
